import Mathlib

/-!
# Verification of the IsThisAFoul frame-analysis pipeline

A shallow embedding, in Lean 4, of the basketball foul-analysis pipeline:
the multi-frame response parser, the foul-indicator normalizers, the
sequence-summary extractor, the single-frame fallback parser, the summary
aggregator, the request validation, and the final-determination synthesis
step, together with theorems settling the specified properties.

Conventions of the embedding:
* JavaScript strings are modelled by `String` (a list of characters);
  each JS string method used by the source is given an explicit model
  (`jsTrim`, `jsSplit`, `jsToLower`, ...), matching its behaviour on the
  character sequences the pipeline handles.
* The external generation model and `JSON.parse` are parameters: a model
  call that can throw is `Except String String`, and `JSON.parse` plus the
  unchecked cast to the determination shape is a function
  `String → Option FoulDetermination` (with `none` modelling a thrown
  `SyntaxError`).
* JS `Number` arithmetic in the aggregator is modelled by `Rat`, with
  `Math.round` as `jsRound`; the `NaN` produced by `0/0` is modelled by
  `Option.none`.
-/

/-! ## JS string primitives -/

/-- Whitespace as recognised by JS `trim` / `\s` (the ASCII part, which is
all the pipeline's text contains). -/
def isJsWs (c : Char) : Bool :=
  c == ' ' || c == '\t' || c == '\n' || c == '\r' || c == '\x0b' || c == '\x0c'

/-- JS `String.prototype.trim`. -/
def jsTrim (s : String) : String :=
  String.mk (((s.data.dropWhile isJsWs).reverse.dropWhile isJsWs).reverse)

/-- JS `String.prototype.toLowerCase` (ASCII). -/
def jsToLower (s : String) : String :=
  String.mk (s.data.map Char.toLower)

/-- JS `s.startsWith(pat)`. -/
def jsStartsWith (s pat : String) : Bool :=
  pat.data.isPrefixOf s.data

/-- JS `s.endsWith(pat)`. -/
def jsEndsWith (s pat : String) : Bool :=
  pat.data.isSuffixOf s.data

/-- Splitting a list of characters at every occurrence of a separator,
keeping empty pieces: the semantics of JS `s.split(sep)` for a one-character
separator. -/
def splitChars (sep : Char) : List Char → List (List Char)
  | [] => [[]]
  | c :: cs =>
    if c = sep then [] :: splitChars sep cs
    else
      match splitChars sep cs with
      | [] => [[c]]
      | p :: ps => (c :: p) :: ps

/-- JS `s.split(sep)` for a one-character separator. -/
def jsSplit (s : String) (sep : Char) : List String :=
  (splitChars sep s.data).map String.mk

/-- Dropping a leading label: the source always writes
`line.replace("LABEL:", "")` guarded by `line.startsWith("LABEL:")`, under
which JS `replace` (first occurrence only) removes exactly the leading
label. -/
def jsDropLen (s pat : String) : String :=
  String.mk (s.data.drop pat.data.length)

/-- JS `x || d` for a possibly-undefined string field: an absent or empty
(falsy) string is replaced by the default. -/
def jsOrStr (o : Option String) (d : String) : String :=
  match o with
  | some s => if s = "" then d else s
  | none => d

/-- Case-insensitive literal match at the head of a character list: the
pattern is given in lower case, as in a `/literal/i` regex. -/
def caselessLit : List Char → List Char → Bool
  | [], _ => true
  | _ :: _, [] => false
  | p :: ps, c :: cs => p == c.toLower && caselessLit ps cs

/-! ## Data model (`route.ts` interfaces) -/

/-- A frame record handed to the analysis route (`frames` request field):
an image path and a timestamp. -/
structure FrameData where
  path : String
  timestamp : Int
deriving DecidableEq, Repr

/-- The `FrameAnalysis` interface. -/
structure FrameAnalysis where
  frameNumber : Nat
  timestamp : Int
  action : String
  playerMovement : String
  contact : String
  ballStatus : String
  foulIndicators : List String
deriving DecidableEq, Repr

/-- The partially-accumulated frame of the multi-frame parser
(`Partial<FrameAnalysis>` for the text fields it fills in). -/
structure FrameDraft where
  action : Option String := none
  playerMovement : Option String := none
  contact : Option String := none
  ballStatus : Option String := none
  foulIndicators : Option (List String) := none
deriving DecidableEq, Repr

/-- The record built by `parseAnalysisResponse` (single-frame fallback
parser); `analysisQuality` is kept internally only. -/
structure SingleAnalysis where
  action : String
  playerMovement : String
  contact : String
  ballStatus : String
  foulIndicators : List String
  analysisQuality : String
deriving DecidableEq, Repr

/-- The optional sequence-level summary built by
`extractSequenceAnalysis`; a field is `none` when the corresponding key
was never assigned. -/
structure SequenceSummary where
  progression : Option String := none
  keyMoments : Option String := none
  foulDetermination : Option String := none
deriving DecidableEq, Repr

/-- The summary object built by `generateAnalysisSummary`.
`foulIndicatorPercentage` is `none` exactly when the JS computation is
`Math.round((0/0)*100) = NaN`. -/
structure AnalysisSummary where
  totalFrames : Nat
  framesWithFoulIndicators : Nat
  foulIndicatorPercentage : Option Int
  commonFoulIndicators : List String
  recommendation : String
deriving DecidableEq, Repr

/-- A rule citation inside a `FoulDetermination`. -/
structure RuleCitation where
  ruleNumber : String
  ruleText : String
  relevance : String
deriving DecidableEq, Repr

/-- A key moment inside a `FoulDetermination`. -/
structure KeyMoment where
  frameNumber : Int
  description : String
deriving DecidableEq, Repr

/-- The `FoulDetermination` interface (`foulType?` is optional). -/
structure FoulDetermination where
  hasFoul : Bool
  confidence : String
  foulType : Option String
  ruleCitations : List RuleCitation
  explanation : String
  keyMoments : List KeyMoment
deriving DecidableEq, Repr

/-! ## Foul-indicator normalizers -/

/-- The comma-split-trim-filter tail shared verbatim by all three indicator
parsing blocks in the source:
`x.split(",").map(i => i.trim()).filter(i => i.length > 0 && i.toLowerCase() !== "none" && i.toLowerCase() !== "n/a")`. -/
def splitCommaFilter (s : String) : List String :=
  ((jsSplit s ',').map jsTrim).filter
    (fun i => i != "" && jsToLower i != "none" && jsToLower i != "n/a")

/-- `parseFoulIndicators` (the batch parser's indicator normalizer). -/
def parseFoulIndicators (indicators : String) : List String :=
  if indicators = "" then []
  else if indicators = "[]" ∨ indicators = "[ ]" ∨
      jsToLower indicators = "none" ∨ jsToLower indicators = "no indicators" ∨
      jsToLower indicators = "n/a" then []
  else
    let cleaned :=
      if jsStartsWith indicators "[" && jsEndsWith indicators "]" then
        jsTrim (String.mk ((indicators.data.drop 1).dropLast))
      else indicators
    splitCommaFilter cleaned

/-- The inline `FOUL_INDICATORS:` handling of `parseAnalysisResponse`
(the single-frame fallback parser), lines 579–637 of the analyze route. -/
def fallbackFoulIndicators (indicators : String) : List String :=
  if indicators ≠ "" then
    if indicators = "[]" ∨ indicators = "[ ]" ∨
        jsTrim indicators = "[]" ∨ jsTrim indicators = "[ ]" then []
    else if jsStartsWith indicators "[" && jsEndsWith indicators "]" then
      let bracketContent := jsTrim (String.mk ((indicators.data.drop 1).dropLast))
      if bracketContent ≠ "" ∧ jsToLower bracketContent ≠ "none" ∧
          jsToLower bracketContent ≠ "no indicators" ∧
          jsToLower bracketContent ≠ "n/a" then
        splitCommaFilter bracketContent
      else []
    else
      if jsToLower indicators ≠ "none" ∧ jsToLower indicators ≠ "no indicators" ∧
          jsToLower indicators ≠ "no foul indicators" ∧
          jsToLower indicators ≠ "n/a" ∧ jsToLower indicators ≠ "not applicable" then
        splitCommaFilter indicators
      else []
  else []

example : parseFoulIndicators "none" = [] := by decide
example : parseFoulIndicators "reach-in, push" = ["reach-in", "push"] := by decide
example : parseFoulIndicators "no foul indicators" = ["no foul indicators"] := by decide
example : fallbackFoulIndicators "no foul indicators" = [] := by decide
example : parseFoulIndicators " [] " = ["[]"] := by decide

/-! ## Multi-frame response parser (`parseMultiFrameAnalysis`) -/

/-- Strip the `\*?\*?` of a `/^\*?\*?LITERAL.../i` regex: up to two leading
asterisks.  Since none of the literals begins with `*`, consuming the
maximal number (≤ 2) of leading stars is equivalent to the regex's
backtracking. -/
def stripStars2 : List Char → List Char
  | '*' :: '*' :: r => r
  | '*' :: r => r
  | l => l

/-- Digit run to a number (`parseInt` on a nonempty digit capture). -/
def digitsToNat (ds : List Char) : Nat :=
  ds.foldl (fun a c => 10 * a + (c.toNat - '0'.toNat)) 0

/-- The frame-header test
`trimmedLine.match(/^\*?\*?FRAME\s*(\d+):?\*?\*?/i)`: returns the parsed
frame number when the line matches.  After the literal the regex skips
whitespace and requires at least one digit; the optional trailing colon
and stars cannot fail. -/
def frameHeaderNum (t : String) : Option Nat :=
  let l := stripStars2 t.data
  if caselessLit "frame".data l then
    let l1 := (l.drop 5).dropWhile isJsWs
    let ds := l1.takeWhile Char.isDigit
    if ds = [] then none else some (digitsToNat ds)
  else none

/-- Match of `/\*?\*?SEQUENCE_ANALYSIS:?\*?\*?/i` at the head of a
character list (the optional colon and trailing stars cannot fail). -/
def matchesSeqAt (l : List Char) : Bool :=
  caselessLit "sequence_analysis".data (stripStars2 l)

/-- The lookahead stop test
`nextLine.match(/^(ACTION:|PLAYER_MOVEMENT:|CONTACT:|BALL_STATUS:|FRAME|SEQUENCE_ANALYSIS)/i)`. -/
def isBulletStop (t : String) : Bool :=
  caselessLit "action:".data t.data || caselessLit "player_movement:".data t.data ||
  caselessLit "contact:".data t.data || caselessLit "ball_status:".data t.data ||
  caselessLit "frame".data t.data || caselessLit "sequence_analysis".data t.data

/-- The bullet lookahead of the `FOUL_INDICATORS:` branch (source lines
404–431): starting from the line after the label, collect the contents of
`*`/`-` bullet lines, skip blank lines, and stop at a recognised label or
at any other content.  `nextLine.replace(/^[\*\-]\s*/, "").trim()` equals
dropping the bullet character and trimming. -/
def collectBullets : List String → List String
  | [] => []
  | line :: rest =>
    let t := jsTrim line
    if jsStartsWith t "*" || jsStartsWith t "-" then
      let c := jsTrim (String.mk (t.data.drop 1))
      if c = "" then collectBullets rest else c :: collectBullets rest
    else if isBulletStop t then []
    else if t = "" then collectBullets rest
    else []

/-- One field line of the multi-frame parser (source lines 386–436) applied
to the current frame.  `lines` and the untrimmed `line` are needed because
the empty-`FOUL_INDICATORS:` lookahead restarts from
`lines.indexOf(line) + 1` (the first occurrence of the identical line). -/
def applyField (lines : List String) (line : String) (t : String) (pf : FrameDraft) :
    FrameDraft :=
  if jsStartsWith t "ACTION:" then
    { pf with action := some (jsTrim (jsDropLen t "ACTION:")) }
  else if jsStartsWith t "PLAYER_MOVEMENT:" then
    { pf with playerMovement := some (jsTrim (jsDropLen t "PLAYER_MOVEMENT:")) }
  else if jsStartsWith t "CONTACT:" then
    { pf with contact := some (jsTrim (jsDropLen t "CONTACT:")) }
  else if jsStartsWith t "BALL_STATUS:" then
    { pf with ballStatus := some (jsTrim (jsDropLen t "BALL_STATUS:")) }
  else if jsStartsWith t "FOUL_INDICATORS:" then
    let indicators := jsTrim (jsDropLen t "FOUL_INDICATORS:")
    if indicators = "" then
      let bullets := collectBullets (lines.drop (lines.indexOf line + 1))
      { pf with foulIndicators := some bullets }
    else
      { pf with foulIndicators := some (parseFoulIndicators indicators) }
  else pf

/-- Flushing an accumulated frame (source lines 366–376 and 446–456):
missing or empty text fields fall back to the `"Unknown ..."` defaults via
JS `||`; the timestamp is `frames[currentFrameNumber - 1]?.timestamp || 0`. -/
def flushFrame (frames : List FrameData) (n : Nat) (pf : FrameDraft) : FrameAnalysis :=
  { frameNumber := n
    timestamp := match frames.get? (n - 1) with
      | some f => f.timestamp
      | none => 0
    action := jsOrStr pf.action "Unknown action"
    playerMovement := jsOrStr pf.playerMovement "Unknown movement"
    contact := jsOrStr pf.contact "Unknown contact"
    ballStatus := jsOrStr pf.ballStatus "Unknown ball status"
    foulIndicators := pf.foulIndicators.getD [] }

/-- Append the current frame to the output if one is accumulating and its
number is positive (`if (currentFrame && currentFrameNumber > 0)`). -/
def flushInto (frames : List FrameData) (cur : Option FrameDraft) (n : Nat)
    (acc : List FrameAnalysis) : List FrameAnalysis :=
  match cur with
  | some pf => if 0 < n then acc ++ [flushFrame frames n pf] else acc
  | none => acc

/-- The default record used when no frame at all was parsed from the batch
response (source lines 459–471). -/
def failedParseRecord (i : Nat) (f : FrameData) : FrameAnalysis :=
  { frameNumber := i + 1
    timestamp := f.timestamp
    action := "Failed to parse multi-frame analysis"
    playerMovement := "Unknown"
    contact := "Unknown"
    ballStatus := "Unknown"
    foulIndicators := [] }

/-- One default record per input frame. -/
def failedParseAll (frames : List FrameData) : List FrameAnalysis :=
  frames.enum.map (fun p => failedParseRecord p.1 p.2)

/-- End of the scan (or the `SEQUENCE_ANALYSIS` break): save the last
frame, then substitute the default records if nothing was parsed. -/
def finalizeParse (frames : List FrameData) (cur : Option FrameDraft) (n : Nat)
    (acc : List FrameAnalysis) : List FrameAnalysis :=
  let acc' := flushInto frames cur n acc
  if acc' = [] then failedParseAll frames else acc'

/-- The line scan of `parseMultiFrameAnalysis`: `rest` is the unprocessed
suffix of `lines`.  A frame-header line flushes the current frame and
starts a new one (then `continue`s); otherwise a nonempty line may assign
a field of the current frame, and a `SEQUENCE_ANALYSIS` line breaks the
loop. -/
def parseGo (lines : List String) (frames : List FrameData) :
    List String → Option FrameDraft → Nat → List FrameAnalysis → List FrameAnalysis
  | [], cur, n, acc => finalizeParse frames cur n acc
  | line :: rest, cur, n, acc =>
    let t := jsTrim line
    match frameHeaderNum t with
    | some m => parseGo lines frames rest (some {}) m (flushInto frames cur n acc)
    | none =>
      let cur' := match cur with
        | some pf => if t ≠ "" then some (applyField lines line t pf) else some pf
        | none => none
      if matchesSeqAt t.data then finalizeParse frames cur' n acc
      else parseGo lines frames rest cur' n acc

/-- `parseMultiFrameAnalysis(text, frames)` (source lines 352–474). -/
def parseMultiFrameAnalysis (text : String) (frames : List FrameData) :
    List FrameAnalysis :=
  let lines := jsSplit text '\n'
  parseGo lines frames lines none 0 []

example :
    parseMultiFrameAnalysis "FRAME 1:\nACTION: drive\nCONTACT: none"
      [{ path := "a", timestamp := 1 }, { path := "b", timestamp := 2 }] =
    [{ frameNumber := 1, timestamp := 1, action := "drive",
       playerMovement := "Unknown movement", contact := "none",
       ballStatus := "Unknown ball status", foulIndicators := [] }] := by decide

/-! ## Single-frame fallback parser (`parseAnalysisResponse`) -/

/-- One line of `parseAnalysisResponse` (source lines 558–639) applied to
the accumulating record; later matching lines overwrite earlier ones. -/
def applySingleField (a : SingleAnalysis) (line : String) : SingleAnalysis :=
  let t := jsTrim line
  if jsStartsWith t "ACTION:" then
    { a with action := jsTrim (jsDropLen t "ACTION:") }
  else if jsStartsWith t "PLAYER_MOVEMENT:" then
    { a with playerMovement := jsTrim (jsDropLen t "PLAYER_MOVEMENT:") }
  else if jsStartsWith t "CONTACT:" then
    { a with contact := jsTrim (jsDropLen t "CONTACT:") }
  else if jsStartsWith t "BALL_STATUS:" then
    { a with ballStatus := jsTrim (jsDropLen t "BALL_STATUS:") }
  else if jsStartsWith t "ANALYSIS_QUALITY:" then
    { a with analysisQuality := jsToLower (jsTrim (jsDropLen t "ANALYSIS_QUALITY:")) }
  else if jsStartsWith t "FOUL_INDICATORS:" then
    { a with foulIndicators := fallbackFoulIndicators (jsTrim (jsDropLen t "FOUL_INDICATORS:")) }
  else a

/-- `parseAnalysisResponse(text)` (source lines 547–642). -/
def parseAnalysisResponse (text : String) : SingleAnalysis :=
  (jsSplit text '\n').foldl applySingleField
    { action := "Unknown action", playerMovement := "Unknown movement",
      contact := "Unknown contact", ballStatus := "Unknown ball status",
      foulIndicators := [], analysisQuality := "fair" }

/-! ## Fallback per-frame loop (source lines 207–277)

Each frame is paired with the outcome of its own model call:
`Except.error` models a thrown error anywhere inside the per-frame `try`
block, `Except.ok` carries the trimmed response text. -/

/-- The record pushed in the per-frame `catch` (source lines 267–275). -/
def fallbackSentinel (i : Nat) (f : FrameData) : FrameAnalysis :=
  { frameNumber := i + 1
    timestamp := f.timestamp
    action := "Failed to analyze frame"
    playerMovement := "Unknown"
    contact := "Unknown"
    ballStatus := "Unknown"
    foulIndicators := [] }

/-- One iteration of the fallback loop at index `i`. -/
def fallbackStep (p : Nat × (FrameData × Except Unit String)) : FrameAnalysis :=
  match p.2.2 with
  | Except.ok text =>
    let a := parseAnalysisResponse text
    { frameNumber := p.1 + 1
      timestamp := p.2.1.timestamp
      action := a.action
      playerMovement := a.playerMovement
      contact := a.contact
      ballStatus := a.ballStatus
      foulIndicators := a.foulIndicators }
  | Except.error _ => fallbackSentinel p.1 p.2.1

/-- The whole fallback loop: frames processed one at a time, in index
order, each failure isolated to its own frame. -/
def fallbackAnalyze (inputs : List (FrameData × Except Unit String)) :
    List FrameAnalysis :=
  inputs.enum.map fallbackStep

/-! ## Summary aggregator (`generateAnalysisSummary`) -/

/-- JS `Math.round` on an (exact) number: round half up. -/
def jsRound (q : Rat) : Int := ⌊q + 1 / 2⌋

/-- `[...new Set(xs)]`: deduplication keeping first occurrences in order. -/
def jsSetDedup (l : List String) : List String :=
  l.foldl (fun acc s => if s ∈ acc then acc else acc ++ [s]) []

/-- `generateAnalysisSummary(analyses)` (source lines 645–667).
When `analyses` is empty the JS percentage is `Math.round((0/0)*100)`,
i.e. `NaN`, modelled as `none`. -/
def generateAnalysisSummary (analyses : List FrameAnalysis) : AnalysisSummary :=
  let totalFrames := analyses.length
  let framesWith := (analyses.filter (fun a => 0 < a.foulIndicators.length)).length
  let allFoulIndicators := analyses.flatMap (fun a => a.foulIndicators)
  { totalFrames := totalFrames
    framesWithFoulIndicators := framesWith
    foulIndicatorPercentage :=
      if totalFrames = 0 then none
      else some (jsRound ((framesWith : Rat) / (totalFrames : Rat) * 100))
    commonFoulIndicators := jsSetDedup allFoulIndicators
    recommendation :=
      if 0 < framesWith then "Potential foul detected - review flagged frames"
      else "No clear foul indicators detected" }

/-! ## Request validation (source lines 24–29) -/

/-- The JSON value found in the request's `frames` field. -/
inductive FramesField where
  | undef : FramesField
  | jsNull : FramesField
  | arr : List FrameData → FramesField
  | other : Bool → FramesField
deriving DecidableEq

/-- JS falsiness of the `frames` value (`!frames`); an array — empty or
not — is truthy. -/
def jsFalsy : FramesField → Bool
  | FramesField.undef => true
  | FramesField.jsNull => true
  | FramesField.arr _ => false
  | FramesField.other t => !t

/-- `Array.isArray(frames)`. -/
def isArrayField : FramesField → Bool
  | FramesField.arr _ => true
  | _ => false

/-- The rejection test of the analyze route:
`if (!frames || !Array.isArray(frames))` → respond 400. -/
def framesRejected (f : FramesField) : Bool :=
  jsFalsy f || !isArrayField f

/-! ## Determination synthesis (`makeFinalDetermination`, foul route) -/

/-- `text.match(/\{[\s\S]*\}/)`: the span from the first opening brace to
the last closing brace, provided the latter comes strictly after the
former. -/
def extractJsonSpan (t : String) : Option String :=
  match t.data.findIdx? (fun c => c == '{') with
  | none => none
  | some i =>
    match t.data.reverse.findIdx? (fun c => c == '}') with
    | none => none
    | some r =>
      let j := t.data.length - 1 - r
      if i < j then some (String.mk ((t.data.drop i).take (j - i + 1))) else none

/-- The conservative default determination (source lines 1005–1012),
returned when the response contains no brace span. -/
def defaultDetermination : FoulDetermination :=
  { hasFoul := false
    confidence := "low"
    foulType := none
    ruleCitations := []
    explanation := "Unable to make a clear determination based on the available information."
    keyMoments := [] }

/-- `makeFinalDetermination` (source lines 912–1017), as a function of the
generation call's outcome and of `JSON.parse`.  `genResult` is the model
call (its `Except.error` is caught and rethrown by the catch block);
`jsonParse` abstracts `JSON.parse` plus the unchecked cast, with `none`
modelling a thrown `SyntaxError` — which the catch block also rethrows
instead of returning the default. -/
def makeFinalDetermination (genResult : Except String String)
    (jsonParse : String → Option FoulDetermination) : Except String FoulDetermination :=
  match genResult with
  | Except.error e => Except.error e
  | Except.ok text =>
    match extractJsonSpan text with
    | some span =>
      match jsonParse span with
      | some determination => Except.ok determination
      | none => Except.error "SyntaxError: JSON.parse"
    | none => Except.ok defaultDetermination

example : extractJsonSpan "no braces" = none := by decide
example : extractJsonSpan "a \x7b x \x7d b" = some "\x7b x \x7d" := by decide
example :
    makeFinalDetermination (Except.ok "hello") (fun _ => none) =
    Except.ok defaultDetermination := rfl

/-! ## Sequence-summary extractor (`extractSequenceAnalysis`) -/

/-- Leftmost index at which `/\*?\*?SEQUENCE_ANALYSIS:?\*?\*?/i` matches
(the `index` of `text.match(...)`). -/
def findSeqIdx : List Char → Nat → Option Nat
  | [], _ => none
  | l@(_ :: rest), i => if matchesSeqAt l then some i else findSeqIdx rest (i + 1)

/-- Consume exactly `n` leading asterisks. -/
def starsTake : Nat → List Char → Option (List Char)
  | 0, l => some l
  | n + 1, '*' :: r => starsTake n r
  | _ + 1, _ => none

/-- The `\s*(.+)` tail of a label regex, with the regex's backtracking:
greedy whitespace, then a nonempty greedy capture; if nothing remains the
whitespace group gives one character back. -/
def wsCapture (l : List Char) : Option (List Char) :=
  let rest := l.dropWhile isJsWs
  if rest ≠ [] then some rest
  else ((l.takeWhile isJsWs).getLast?).map (fun c => [c])

/-- The `\*?\*?\s*(.+)` tail: trailing stars greedy with backtracking. -/
def starsWsCapture (l : List Char) : Option (List Char) :=
  (starsTake 2 l >>= wsCapture) <|> (starsTake 1 l >>= wsCapture) <|> wsCapture l

/-- The `:?\*?\*?\s*(.+)` tail: the optional colon is consumed greedily and
given back on failure. -/
def afterLabel (l : List Char) : Option (List Char) :=
  match l with
  | ':' :: r => starsWsCapture r <|> starsWsCapture l
  | _ => starsWsCapture l

/-- Match of `/\*?\*?LABEL:?\*?\*?\s*(.+)/i` at the head of a character
list, returning the capture.  None of the labels begins with `*`, so at
most one leading-star count can reach the literal. -/
def matchLabelAt (lab : List Char) (l : List Char) : Option (List Char) :=
  let core := fun (l1 : List Char) =>
    if caselessLit lab l1 then afterLabel (l1.drop lab.length) else none
  match l with
  | '*' :: '*' :: r2 => core r2 <|> core ('*' :: r2) <|> core l
  | '*' :: r => core r <|> core l
  | _ => core l

/-- Leftmost match of a label regex in a line, returning the capture. -/
def labelScan (lab : List Char) : List Char → Option (List Char)
  | [] => none
  | l@(_ :: rest) =>
    match matchLabelAt lab l with
    | some cap => some cap
    | none => labelScan lab rest

/-- `line.match(/\*?\*?LABEL:?\*?\*?\s*(.+)/i)` with group 1 of the first
match; the label is given lower-case. -/
def labelCapture (lab line : String) : Option String :=
  (labelScan lab.data line.data).map String.mk

/-- One line of `extractSequenceAnalysis` (source lines 520–541): the
first matching label regex, in source order, assigns its trimmed capture. -/
def seqStep (a : SequenceSummary) (line : String) : SequenceSummary :=
  let t := jsTrim line
  match labelCapture "progression" t with
  | some c => { a with progression := some (jsTrim c) }
  | none =>
    match labelCapture "key_moments" t with
    | some c => { a with keyMoments := some (jsTrim c) }
    | none =>
      match labelCapture "foul_determination" t with
      | some c => { a with foulDetermination := some (jsTrim c) }
      | none => a

/-- `extractSequenceAnalysis(text)` (source lines 510–544).  Note the
guard `if (!sequenceMatch || !sequenceMatch.index) return null`: a match
whose `index` is `0` is falsy, so a header at position 0 yields `null`. -/
def extractSequenceAnalysis (text : String) : Option SequenceSummary :=
  match findSeqIdx text.data 0 with
  | none => none
  | some 0 => none
  | some i =>
    let sub := String.mk (text.data.drop i)
    let a := (jsSplit sub '\n').foldl seqStep {}
    if a.progression = none ∧ a.keyMoments = none ∧ a.foulDetermination = none then none
    else some a

example : labelCapture "progression" "PROGRESSION: fast break" = some "fast break" := by decide
example : labelCapture "progression" "**PROGRESSION:** x" = some "x" := by decide
example : labelCapture "progression" "PROGRESSION:" = some ":" := by decide
example : labelCapture "progression" "no label here" = none := by decide
example : extractSequenceAnalysis "SEQUENCE_ANALYSIS:\nPROGRESSION: a" = none := by decide
example :
    extractSequenceAnalysis " SEQUENCE_ANALYSIS:\nPROGRESSION: a" =
    some { progression := some "a" } := by decide

/-! ## Helper lemmas -/

theorem jsSetDedup_go_mem (l : List String) :
    ∀ (acc : List String) (a : String),
      (a ∈ l.foldl (fun acc s => if s ∈ acc then acc else acc ++ [s]) acc) ↔
        a ∈ acc ∨ a ∈ l := by
  induction l with
  | nil => intro acc a; simp
  | cons s l ih =>
    intro acc a
    simp only [List.foldl_cons]
    by_cases hs : s ∈ acc
    · rw [if_pos hs, ih]
      simp only [List.mem_cons]
      constructor
      · rintro (h | h)
        · exact Or.inl h
        · exact Or.inr (Or.inr h)
      · rintro (h | h | h)
        · exact Or.inl h
        · exact Or.inl (h ▸ hs)
        · exact Or.inr h
    · rw [if_neg hs, ih]
      simp only [List.mem_append, List.mem_singleton, List.mem_cons]
      tauto

theorem jsSetDedup_go_nodup (l : List String) :
    ∀ acc : List String, acc.Nodup →
      (l.foldl (fun acc s => if s ∈ acc then acc else acc ++ [s]) acc).Nodup := by
  induction l with
  | nil => intro acc h; simpa using h
  | cons s l ih =>
    intro acc h
    simp only [List.foldl_cons]
    by_cases hs : s ∈ acc
    · rw [if_pos hs]; exact ih acc h
    · rw [if_neg hs]
      refine ih _ ?_
      simp [List.nodup_append, h, hs]

theorem mem_jsSetDedup (l : List String) (a : String) : a ∈ jsSetDedup l ↔ a ∈ l := by
  unfold jsSetDedup
  rw [jsSetDedup_go_mem]
  simp

theorem jsSetDedup_nodup (l : List String) : (jsSetDedup l).Nodup :=
  jsSetDedup_go_nodup l [] List.nodup_nil

/-! ## C2 — parse failures in the synthesis step -/

/-- C2 (code-bug evidence): a generation response whose brace span is not
valid JSON makes `makeFinalDetermination` propagate the `JSON.parse` error
(the catch block rethrows it) instead of returning the conservative
default, contradicting the claim and the source's own comment above the
default return. -/
theorem makeFinalDetermination_parse_error_propagates
    (jsonParse : String → Option FoulDetermination)
    (h : jsonParse "\x7boops\x7d" = none) :
    makeFinalDetermination (Except.ok "\x7boops\x7d") jsonParse =
      Except.error "SyntaxError: JSON.parse" := by
  have hspan : extractJsonSpan "\x7boops\x7d" = some "\x7boops\x7d" := by decide
  simp [makeFinalDetermination, hspan, h]

/-- C2 witness: the theorem applied to a parse function failing on the
span, as `JSON.parse` does on `{oops}`. -/
theorem makeFinalDetermination_parse_error_propagates_witness :
    makeFinalDetermination (Except.ok "\x7boops\x7d") (fun _ => none) =
      Except.error "SyntaxError: JSON.parse" :=
  makeFinalDetermination_parse_error_propagates (fun _ => none) rfl

/-! ## C4 — zero-frame requests -/

/-- C4 counterexample: a present, well-formed but empty frame list passes
the route's validation (`!frames || !Array.isArray(frames)` is false for
`[]`), and the aggregate's percentage division then runs with
`totalFrames = 0`, producing the JS `NaN` (modelled `none`). -/
theorem emptyFrames_not_rejected_cex :
    framesRejected (FramesField.arr []) = false ∧
    (generateAnalysisSummary []).foulIndicatorPercentage = none :=
  ⟨rfl, rfl⟩

/-- C4 (amended): the validation rejects exactly the non-array `frames`
values; every array — including the empty one — passes, and on an empty
frame sequence the aggregate's percentage is the `NaN` of `0/0`. -/
theorem framesValidation_spec :
    (∀ fs : List FrameData, framesRejected (FramesField.arr fs) = false) ∧
    (∀ f : FramesField, isArrayField f = false → framesRejected f = true) ∧
    (generateAnalysisSummary []).foulIndicatorPercentage = none ∧
    (generateAnalysisSummary []).totalFrames = 0 := by
  refine ⟨fun fs => rfl, fun f hf => ?_, rfl, rfl⟩
  simp [framesRejected, hf]

/-- C4 witness: a `null` frames field is rejected. -/
theorem framesValidation_spec_witness :
    framesRejected FramesField.jsNull = true :=
  framesValidation_spec.2.1 FramesField.jsNull rfl

/-! ## C5 — the foulType presence law -/

/-- A determination the generation model can emit: no foul, yet with a
`foulType` field. -/
def badDeterminationC5 : FoulDetermination :=
  { hasFoul := false
    confidence := "high"
    foulType := some "blocking foul"
    ruleCitations := []
    explanation := "contact affected the play"
    keyMoments := [] }

set_option maxRecDepth 8000 in
/-- C5 counterexample: the synthesis step returns the parsed JSON object
unchecked, so a response whose JSON carries `hasFoul: false` together with
a `foulType` flows through `makeFinalDetermination` unchanged, violating
the presence law. -/
theorem foulType_presence_cex :
    makeFinalDetermination
      (Except.ok "\x7b\"hasFoul\": false, \"confidence\": \"high\", \"foulType\": \"blocking foul\", \"ruleCitations\": [], \"explanation\": \"contact affected the play\", \"keyMoments\": []\x7d")
      (fun _ => some badDeterminationC5) = Except.ok badDeterminationC5 ∧
    badDeterminationC5.hasFoul = false ∧ badDeterminationC5.foulType ≠ none := by
  refine ⟨rfl, rfl, by decide⟩

/-- C5 (amended): the presence law is enforced only on the conservative
default path — when the response has no brace span the returned
determination has `hasFoul = false` and no `foulType`; a parsed model
object is returned as-is and need not satisfy the law. -/
theorem foulType_presence_default (t : String) (jp : String → Option FoulDetermination)
    (h : extractJsonSpan t = none) :
    makeFinalDetermination (Except.ok t) jp = Except.ok defaultDetermination ∧
    defaultDetermination.hasFoul = false ∧ defaultDetermination.foulType = none := by
  refine ⟨?_, rfl, rfl⟩
  simp [makeFinalDetermination, h]

/-- C5 witness: the default path taken on a braceless response. -/
theorem foulType_presence_default_witness :
    makeFinalDetermination (Except.ok "no decision") (fun _ => none) =
      Except.ok defaultDetermination :=
  (foulType_presence_default "no decision" (fun _ => none) (by decide)).1

/-! ## C7 — placeholder handling of the normalizer -/

/-- C7 counterexample: `parseFoulIndicators` does not recognise
`"not applicable"` (nor `"no foul indicators"`, nor whitespace-wrapped
placeholders) as empty. -/
theorem parseFoulIndicators_placeholder_cex :
    parseFoulIndicators "not applicable" = ["not applicable"] ∧
    parseFoulIndicators "not applicable" ≠ [] ∧
    parseFoulIndicators " [] " = ["[]"] := by
  refine ⟨by decide, by decide, by decide⟩

/-- C7 (amended): the normalizer maps `""`, `"[]"`, `"[ ]"` (exactly) and
`"none"`, `"no indicators"`, `"n/a"` (case-insensitively) to the empty
set, but keeps `"no foul indicators"` and `"not applicable"` as one-element
lists, and does not itself ignore surrounding whitespace (its call sites
trim first). -/
theorem parseFoulIndicators_placeholders :
    parseFoulIndicators "" = [] ∧
    parseFoulIndicators "[]" = [] ∧
    parseFoulIndicators "[ ]" = [] ∧
    (∀ s : String,
      jsToLower s = "none" ∨ jsToLower s = "no indicators" ∨ jsToLower s = "n/a" →
      parseFoulIndicators s = []) ∧
    parseFoulIndicators "no foul indicators" = ["no foul indicators"] ∧
    parseFoulIndicators "not applicable" = ["not applicable"] := by
  refine ⟨by decide, by decide, by decide, ?_, by decide, by decide⟩
  intro s hs
  unfold parseFoulIndicators
  by_cases h0 : s = ""
  · rw [if_pos h0]
  · rw [if_neg h0, if_pos (by tauto)]

/-- C7 witness: case-insensitivity at a concrete input. -/
theorem parseFoulIndicators_placeholders_witness :
    parseFoulIndicators "NoNe" = [] :=
  parseFoulIndicators_placeholders.2.2.2.1 "NoNe" (Or.inl (by decide))

/-! ## C3 — the two indicator normalizers -/

/-- C3 counterexample: the two call sites do not run one identical shared
routine — on the fragment `"no foul indicators"` the batch normalizer
keeps a one-element list while the fallback parser's inline normalizer
returns the empty set. -/
theorem foulIndicators_not_shared_cex :
    parseFoulIndicators "no foul indicators" = ["no foul indicators"] ∧
    fallbackFoulIndicators "no foul indicators" = [] ∧
    parseFoulIndicators "no foul indicators" ≠
      fallbackFoulIndicators "no foul indicators" := by
  refine ⟨by decide, by decide, by decide⟩

/-- C3 (amended): the batch parser and the fallback parser use two
different inline normalizers that disagree on some placeholder fragments,
but they do agree on every trimmed fragment that is neither
bracket-delimited nor one of either routine's placeholder literals. -/
theorem foulIndicators_agree_on_plain (s : String)
    (h0 : jsTrim s = s) (h1 : s ≠ "")
    (h2 : (jsStartsWith s "[" && jsEndsWith s "]") = false)
    (h3 : jsToLower s ∉
      ["none", "no indicators", "no foul indicators", "n/a", "not applicable"]) :
    parseFoulIndicators s = fallbackFoulIndicators s := by
  simp only [List.mem_cons, List.not_mem_nil, or_false, not_or] at h3
  obtain ⟨l1, l2, l3, l4, l5⟩ := h3
  have e1 : s ≠ "[]" := by rintro rfl; exact absurd h2 (by decide)
  have e2 : s ≠ "[ ]" := by rintro rfl; exact absurd h2 (by decide)
  have hbr : ¬((jsStartsWith s "[" && jsEndsWith s "]") = true) := by
    simp [h2]
  simp only [parseFoulIndicators, fallbackFoulIndicators]
  rw [if_neg h1, if_neg (by tauto), if_neg hbr,
    if_pos h1, if_neg (by rw [h0]; tauto), if_neg hbr,
    if_pos ⟨l1, l2, l3, l4, l5⟩]

/-- C3 witness: agreement at a plain comma-separated fragment. -/
theorem foulIndicators_agree_on_plain_witness :
    parseFoulIndicators "reach-in, push" = fallbackFoulIndicators "reach-in, push" :=
  foulIndicators_agree_on_plain "reach-in, push" (by decide) (by decide) (by decide)
    (by decide)

/-! ## C6 — the summary aggregator -/

/-- C6 (confirmed): the aggregator is a pure function of the frame
sequence: the flagged-frame count, the rounded percentage, the
deduplicated union of indicators, and the two-valued recommendation are
as specified. -/
theorem generateAnalysisSummary_spec (analyses : List FrameAnalysis)
    (h : analyses ≠ []) :
    (generateAnalysisSummary analyses).totalFrames = analyses.length ∧
    (generateAnalysisSummary analyses).framesWithFoulIndicators =
      (analyses.filter (fun a => a.foulIndicators ≠ [])).length ∧
    (generateAnalysisSummary analyses).foulIndicatorPercentage =
      some (jsRound
        (100 * ((generateAnalysisSummary analyses).framesWithFoulIndicators : Rat) /
          ((generateAnalysisSummary analyses).totalFrames : Rat))) ∧
    (∀ s, s ∈ (generateAnalysisSummary analyses).commonFoulIndicators ↔
      ∃ a ∈ analyses, s ∈ a.foulIndicators) ∧
    (generateAnalysisSummary analyses).commonFoulIndicators.Nodup ∧
    ((generateAnalysisSummary analyses).recommendation =
      if ∃ a ∈ analyses, a.foulIndicators ≠ [] then
        "Potential foul detected - review flagged frames"
      else "No clear foul indicators detected") := by
  have hn : analyses.length ≠ 0 := by
    intro e; exact h (List.length_eq_zero.mp e)
  have hfilter :
      (analyses.filter (fun a => 0 < a.foulIndicators.length)) =
        (analyses.filter (fun a => a.foulIndicators ≠ [])) := by
    apply List.filter_congr
    intro a _
    cases a.foulIndicators <;> simp
  have hexists :
      (0 < (analyses.filter (fun a => 0 < a.foulIndicators.length)).length) ↔
        ∃ a ∈ analyses, a.foulIndicators ≠ [] := by
    rw [← List.countP_eq_length_filter, List.countP_pos_iff]
    constructor
    · rintro ⟨a, ha, hp⟩
      refine ⟨a, ha, ?_⟩
      cases hfi : a.foulIndicators
      · rw [hfi] at hp; simp at hp
      · simp
    · rintro ⟨a, ha, hp⟩
      refine ⟨a, ha, ?_⟩
      cases hfi : a.foulIndicators
      · exact absurd hfi hp
      · simp
  refine ⟨rfl, ?_, ?_, ?_, ?_, ?_⟩
  · simp only [generateAnalysisSummary, hfilter]
  · simp only [generateAnalysisSummary, if_neg hn]
    congr 1
    rw [mul_comm, mul_div_assoc]
  · intro s
    simp only [generateAnalysisSummary]
    rw [mem_jsSetDedup, List.mem_flatMap]
  · exact jsSetDedup_nodup _
  · simp only [generateAnalysisSummary]
    by_cases hp : ∃ a ∈ analyses, a.foulIndicators ≠ []
    · rw [if_pos (hexists.mpr hp), if_pos hp]
    · rw [if_neg (fun hl => hp (hexists.mp hl)), if_neg hp]

/-- C6 witness: the aggregator at a concrete two-frame sequence, one frame
flagged. -/
theorem generateAnalysisSummary_spec_witness :
    (generateAnalysisSummary
      [{ frameNumber := 1, timestamp := 1, action := "a", playerMovement := "m",
         contact := "c", ballStatus := "b", foulIndicators := ["push", "grab"] },
       { frameNumber := 2, timestamp := 2, action := "a", playerMovement := "m",
         contact := "c", ballStatus := "b", foulIndicators := [] }]).totalFrames = 2 ∧
    (generateAnalysisSummary
      [{ frameNumber := 1, timestamp := 1, action := "a", playerMovement := "m",
         contact := "c", ballStatus := "b", foulIndicators := ["push", "grab"] },
       { frameNumber := 2, timestamp := 2, action := "a", playerMovement := "m",
         contact := "c", ballStatus := "b", foulIndicators := [] }]).foulIndicatorPercentage =
      some 50 := by
  have hs := generateAnalysisSummary_spec
    [{ frameNumber := 1, timestamp := 1, action := "a", playerMovement := "m",
       contact := "c", ballStatus := "b", foulIndicators := ["push", "grab"] },
     { frameNumber := 2, timestamp := 2, action := "a", playerMovement := "m",
       contact := "c", ballStatus := "b", foulIndicators := [] }] (by decide)
  refine ⟨hs.1.trans rfl, hs.2.2.1.trans ?_⟩
  have hk : (generateAnalysisSummary
      [{ frameNumber := 1, timestamp := 1, action := "a", playerMovement := "m",
         contact := "c", ballStatus := "b", foulIndicators := ["push", "grab"] },
       { frameNumber := 2, timestamp := 2, action := "a", playerMovement := "m",
         contact := "c", ballStatus := "b", foulIndicators := [] }]).framesWithFoulIndicators
      = 1 := rfl
  have hn : (generateAnalysisSummary
      [{ frameNumber := 1, timestamp := 1, action := "a", playerMovement := "m",
         contact := "c", ballStatus := "b", foulIndicators := ["push", "grab"] },
       { frameNumber := 2, timestamp := 2, action := "a", playerMovement := "m",
         contact := "c", ballStatus := "b", foulIndicators := [] }]).totalFrames
      = 2 := rfl
  rw [hk, hn]
  congr 1
  rw [jsRound, Int.floor_eq_iff]
  norm_num

/-! ## C1 — the completion invariant of the multi-frame parser -/

/-- C1 counterexample: for the two-frame input and a response describing
only `FRAME 1`, the parser returns one record, not two — there is no
fill-gap pass for partially parsed responses. -/
theorem parseMultiFrameAnalysis_count_cex :
    (parseMultiFrameAnalysis "FRAME 1:\nACTION: a"
      [{ path := "f1.jpg", timestamp := 1 },
       { path := "f2.jpg", timestamp := 2 }]).length = 1 ∧
    (1 : Nat) ≠ 2 := by
  refine ⟨by decide, by decide⟩

theorem parseGo_noHeader (lines : List String) (frames : List FrameData) :
    ∀ rest : List String, (∀ l ∈ rest, frameHeaderNum (jsTrim l) = none) →
      parseGo lines frames rest none 0 [] = failedParseAll frames := by
  intro rest
  induction rest with
  | nil => intro _; simp [parseGo, finalizeParse, flushInto]
  | cons line rest ih =>
    intro h
    have hline := h line (List.mem_cons_self _ _)
    have hrest : ∀ l ∈ rest, frameHeaderNum (jsTrim l) = none :=
      fun l hl => h l (List.mem_cons_of_mem _ hl)
    simp only [parseGo, hline]
    split
    · simp [finalizeParse, flushInto]
    · exact ih hrest

/-- C1 (amended): the parser guarantees exactly `N` records only through
its total-parse-failure branch: when no line of the response matches a
frame header, it returns exactly one sentinel record per input frame, in
order, with `frameNumber i + 1` and that frame's own timestamp (action
`"Failed to parse multi-frame analysis"`, other fields `"Unknown"`,
empty indicators).  When at least one header parses, the output follows
the headers found in the text and its length can differ from `N`. -/
theorem parseMultiFrameAnalysis_noHeader_sentinels (text : String)
    (frames : List FrameData) (_hN : frames ≠ [])
    (h : ∀ l ∈ jsSplit text '\n', frameHeaderNum (jsTrim l) = none) :
    parseMultiFrameAnalysis text frames = failedParseAll frames ∧
    (parseMultiFrameAnalysis text frames).length = frames.length ∧
    (∀ i f, frames[i]? = some f →
      (parseMultiFrameAnalysis text frames)[i]? = some (failedParseRecord i f)) := by
  have hmain : parseMultiFrameAnalysis text frames = failedParseAll frames :=
    parseGo_noHeader (jsSplit text '\n') frames (jsSplit text '\n') h
  refine ⟨hmain, ?_, ?_⟩
  · rw [hmain]; simp [failedParseAll, List.enum_length]
  · intro i f hf
    rw [hmain]
    simp [failedParseAll, List.getElem?_map, List.getElem?_enum, hf]

/-- C1 witness: a headerless response with two input frames. -/
theorem parseMultiFrameAnalysis_noHeader_sentinels_witness :
    parseMultiFrameAnalysis "The play shows incidental contact."
      [{ path := "f1.jpg", timestamp := 1 }, { path := "f2.jpg", timestamp := 2 }] =
    failedParseAll
      [{ path := "f1.jpg", timestamp := 1 }, { path := "f2.jpg", timestamp := 2 }] :=
  (parseMultiFrameAnalysis_noHeader_sentinels "The play shows incidental contact."
    [{ path := "f1.jpg", timestamp := 1 }, { path := "f2.jpg", timestamp := 2 }]
    (by decide) (by decide)).1

/-! ## C8 — the bullet lookahead -/

/-- C8 counterexample: the lookahead never stops on consecutive blank
lines — after a `FOUL_INDICATORS:` line with empty remainder and three
blank lines, a bullet is still collected, where the claim predicts the
collection stops once two consecutive blank lines are exceeded. -/
theorem bulletLookahead_blankLines_cex :
    ((parseMultiFrameAnalysis "FRAME 1:\nFOUL_INDICATORS:\n\n\n\n* late"
      [{ path := "f1.jpg", timestamp := 1 }])[0]?).map FrameAnalysis.foulIndicators =
      some ["late"] ∧ (["late"] : List String) ≠ [] := by
  refine ⟨by decide, by decide⟩

/-- C8 (amended): the lookahead collects bullet contents in order, skips
any number of blank lines, and stops at the first non-blank non-bullet
line, whether it is a recognised field label, frame header, sequence
header, or any other content; in particular a `FOUL_INDICATORS:` line
with empty remainder followed by two `*`-bullets and `BALL_STATUS:`
yields exactly the two bullet contents, in order. -/
theorem bulletLookahead_spec :
    parseMultiFrameAnalysis
      "FRAME 1:\nACTION: a\nFOUL_INDICATORS:\n* push\n* grab\nBALL_STATUS: loose ball"
      [{ path := "f1.jpg", timestamp := 1 }] =
      [{ frameNumber := 1, timestamp := 1, action := "a",
         playerMovement := "Unknown movement", contact := "Unknown contact",
         ballStatus := "loose ball", foulIndicators := ["push", "grab"] }] ∧
    ((parseMultiFrameAnalysis "FRAME 1:\nFOUL_INDICATORS:\n* a\nsome prose\n* b"
      [{ path := "f1.jpg", timestamp := 1 }])[0]?).map FrameAnalysis.foulIndicators =
      some ["a"] ∧
    collectBullets ["", "", "", "* x", "CONTACT: c", "* y"] = ["x"] := by
  refine ⟨by decide, by decide, by decide⟩

/-! ## C9 — fallback isolation -/

theorem fallbackAnalyze_getElem (inputs : List (FrameData × Except Unit String))
    (i : Nat) :
    (fallbackAnalyze inputs)[i]? = (inputs[i]?).map (fun p => fallbackStep (i, p)) := by
  simp [fallbackAnalyze, List.getElem?_map, List.getElem?_enum, Option.map_map]
  rfl

/-- C9 (amended): during fallback processing the result always has one
record per input frame, in index order with `frameNumber i + 1`; a frame
whose call failed gets the failure record (action
`"Failed to analyze frame"`, the other text fields `"Unknown"`, empty
indicators, that frame's timestamp), and every other frame gets the
parsed analysis of its own response — one failure aborts nothing. -/
theorem fallbackAnalyze_isolation (inputs : List (FrameData × Except Unit String)) :
    (fallbackAnalyze inputs).length = inputs.length ∧
    (∀ j f e, inputs[j]? = some (f, Except.error e) →
      (fallbackAnalyze inputs)[j]? = some (fallbackSentinel j f)) ∧
    (∀ i f t, inputs[i]? = some (f, Except.ok t) →
      (fallbackAnalyze inputs)[i]? = some
        ({ frameNumber := i + 1
           timestamp := f.timestamp
           action := (parseAnalysisResponse t).action
           playerMovement := (parseAnalysisResponse t).playerMovement
           contact := (parseAnalysisResponse t).contact
           ballStatus := (parseAnalysisResponse t).ballStatus
           foulIndicators := (parseAnalysisResponse t).foulIndicators } : FrameAnalysis)) := by
  refine ⟨by simp [fallbackAnalyze, List.enum_length], ?_, ?_⟩
  · intro j f e hj
    rw [fallbackAnalyze_getElem, hj]
    rfl
  · intro i f t hi
    rw [fallbackAnalyze_getElem, hi]
    rfl

/-- C9 counterexample: the substituted record is not all-`"Unknown"` — its
`action` field is `"Failed to analyze frame"`. -/
theorem fallbackSentinel_fields_cex :
    ((fallbackAnalyze
      [({ path := "f1.jpg", timestamp := 1 }, Except.ok "ACTION: drive"),
       ({ path := "f2.jpg", timestamp := 2 }, Except.error ())])[1]?).map
      FrameAnalysis.action = some "Failed to analyze frame" ∧
    ("Failed to analyze frame" : String) ≠ "Unknown" := by
  refine ⟨by decide, by decide⟩

/-- C9 witness: the theorem applied at a two-frame input whose second call
fails. -/
theorem fallbackAnalyze_isolation_witness :
    (fallbackAnalyze
      [({ path := "a.jpg", timestamp := 3 }, Except.ok "ACTION: screen"),
       ({ path := "b.jpg", timestamp := 4 }, Except.error ())])[1]? =
      some (fallbackSentinel 1 { path := "b.jpg", timestamp := 4 }) :=
  (fallbackAnalyze_isolation
    [({ path := "a.jpg", timestamp := 3 }, Except.ok "ACTION: screen"),
     ({ path := "b.jpg", timestamp := 4 }, Except.error ())]).2.1 1
    { path := "b.jpg", timestamp := 4 } () rfl

/-! ## C10 — the sequence-summary extractor's position-zero guard -/

/-- A concrete sequence-analysis section used to exhibit label capture. -/
def seqTailC10 : String :=
  "SEQUENCE_ANALYSIS:\nPROGRESSION: p1\nKEY_MOMENTS: k1\nFOUL_DETERMINATION: f1"

/-- C10 (confirmed): `!sequenceMatch.index` treats a match at character
position 0 as falsy, so a response beginning with the header yields no
summary even when the three labels follow; whenever the first match is at
a strictly positive position, the labels after it are captured. -/
theorem extractSequenceAnalysis_position_guard :
    (∀ t : String, findSeqIdx t.data 0 = some 0 → extractSequenceAnalysis t = none) ∧
    (∀ (t : String) (i : Nat), findSeqIdx t.data 0 = some (i + 1) →
      t.data.drop (i + 1) = seqTailC10.data →
      extractSequenceAnalysis t =
        some { progression := some "p1", keyMoments := some "k1",
               foulDetermination := some "f1" }) := by
  constructor
  · intro t h
    simp only [extractSequenceAnalysis, h]
  · intro t i h hdrop
    simp only [extractSequenceAnalysis, h, hdrop]
    decide

/-- C10 witness: the guard at position 0 (labels present but summary
dropped), and capture at position 2. -/
theorem extractSequenceAnalysis_position_guard_witness :
    extractSequenceAnalysis seqTailC10 = none ∧
    extractSequenceAnalysis ("x\n" ++ seqTailC10) =
      some { progression := some "p1", keyMoments := some "k1",
             foulDetermination := some "f1" } :=
  ⟨extractSequenceAnalysis_position_guard.1 seqTailC10 (by decide),
   extractSequenceAnalysis_position_guard.2 ("x\n" ++ seqTailC10) 1 (by decide) (by decide)⟩
